import Mathlib

/-!
Verification of the dropcal multi-provider calendar synchronization engine.

This file is a shallow embedding of the Python modules
`backend/calendars/microsoft/transform.py`, `backend/calendars/microsoft/create.py`,
`backend/calendars/apple/transform.py`, `backend/calendars/apple/fetch.py` and
`backend/calendars/apple/create.py`, together with theorems settling the
specification claims about recurrence translation, all-day handling, conflict
detection and batch synchronization.

Python values are modelled as follows: dict keys that may be absent become
`Option` fields (a key present with value `None` is identified with an absent
key, which no code path here distinguishes); exceptions become `Except String`;
machine-independent `int` is `Int`/`Nat`.  String primitives (`split`, `take`,
`replace`, `lower`, `str()` of ints) are re-implemented structurally over
`List Char` so that every definition evaluates by kernel reduction.
-/

namespace Dropcal

/-- Decimal digit character for `n < 10`. -/
def digitChar (n : Nat) : Char := Char.ofNat (48 + n)

/-- Decimal digits of `n`, most significant first; `fuel` bounds recursion. -/
def natDigits : Nat → Nat → List Char
  | 0, _ => []
  | fuel + 1, n =>
    if n < 10 then [digitChar n]
    else natDigits fuel (n / 10) ++ [digitChar (n % 10)]

/-- Decimal string of a natural number (Python `str(n)` for `n ≥ 0`). -/
def natRepr (n : Nat) : String := String.mk (natDigits (n + 1) n)

/-- Python `str(i)` for an integer. -/
def pyIntRepr : Int → String
  | Int.ofNat n => natRepr n
  | Int.negSucc n => "-" ++ natRepr (n + 1)

/-- Value of a single decimal digit character. -/
def digitVal (c : Char) : Nat := c.toNat - 48

/-- Is `c` an ASCII decimal digit. -/
def isDigitChar (c : Char) : Bool := decide (48 ≤ c.toNat ∧ c.toNat ≤ 57)

/-- All characters are decimal digits. -/
def allDigits (l : List Char) : Bool := l.all isDigitChar

/-- Numeric value of a digit string. -/
def digitsToNat (l : List Char) : Nat := l.foldl (fun acc c => acc * 10 + digitVal c) 0

/-- Python `int(s)`: optional sign followed by one or more digits
(whitespace and underscore forms are not produced by this code base). -/
def pyInt (s : String) : Option Int :=
  match s.data with
  | [] => none
  | c :: rest =>
    if c = '-' then
      if rest ≠ [] ∧ allDigits rest then some (-(digitsToNat rest : Int)) else none
    else if c = '+' then
      if rest ≠ [] ∧ allDigits rest then some ((digitsToNat rest : Int)) else none
    else if allDigits (c :: rest) then some ((digitsToNat (c :: rest) : Int)) else none

/-- Split a character list at every occurrence of `c` (Python `s.split(c)`). -/
def splitChar (c : Char) : List Char → List (List Char)
  | [] => [[]]
  | a :: as =>
    match splitChar c as with
    | [] => if a = c then [[], []] else [[a]]
    | h :: t => if a = c then [] :: h :: t else (a :: h) :: t

/-- Python `s.split(c)[0]`: the prefix of `s` before the first `c`. -/
def pySplitHead (c : Char) (s : String) : String :=
  String.mk (s.data.takeWhile (fun a => a ≠ c))

/-- Python `s[:n]`. -/
def pyTake (n : Nat) (s : String) : String := String.mk (s.data.take n)

/-- Python `s[n:]`. -/
def pyDrop (n : Nat) (s : String) : String := String.mk (s.data.drop n)

/-- Python `s.replace('Z', '+00:00')`. -/
def pyReplaceZ (s : String) : String :=
  String.mk (s.data.foldr (fun c acc => if c = 'Z' then ('+' :: '0' :: '0' :: ':' :: '0' :: '0' :: acc) else c :: acc) [])

/-- Python `s.lower()` (ASCII). -/
def pyLower (s : String) : String := String.mk (s.data.map Char.toLower)

/-- Join strings with a separator (Python `sep.join(l)`). -/
def joinSep (sep : String) : List String → String
  | [] => ""
  | [a] => a
  | a :: rest => a ++ sep ++ joinSep sep rest

/-- Does the list start with the given prefix. -/
def listStarts : List Char → List Char → Bool
  | [], _ => true
  | _ :: _, [] => false
  | a :: as, b :: bs => if a = b then listStarts as bs else false

/-- Python string truthiness: non-empty. -/
def pyTruthyS (s : String) : Bool := s != ""

/-- Truthiness of an optional string (`None` and `''` are falsy). -/
def pyTruthyOS : Option String → Bool
  | none => false
  | some s => pyTruthyS s

/-- Python `a or b` for optional strings under string truthiness. -/
def pyOrS (a : Option String) (b : String) : String :=
  match a with
  | some s => if pyTruthyS s then s else b
  | none => b

/-- A Python dict of string keys built by repeated assignment:
an association list in insertion order where assignment to an existing key
overwrites in place. -/
def dictInsert (ps : List (String × String)) (k v : String) : List (String × String) :=
  if ps.any (fun p => p.1 == k) then ps.map (fun p => if p.1 = k then (k, v) else p)
  else ps ++ [(k, v)]

/-- Python `d.get(k)`. -/
def dictGet (ps : List (String × String)) (k : String) : Option String :=
  (ps.find? (fun p => p.1 == k)).map (fun p => p.2)

/-- Python `k in d`. -/
def dictHas (ps : List (String × String)) (k : String) : Bool :=
  ps.any (fun p => p.1 == k)

/-! Section: Gregorian calendar arithmetic.

Used to model `datetime.strptime(s, '%Y-%m-%d').weekday()` and
`datetime.fromisoformat`. -/

/-- Gregorian leap year. -/
def isLeap (y : Nat) : Bool := decide (y % 4 = 0 ∧ (y % 100 ≠ 0 ∨ y % 400 = 0))

/-- Days in a month. -/
def daysInMonth (y m : Nat) : Nat :=
  if m = 2 then (if isLeap y then 29 else 28)
  else if m = 4 ∨ m = 6 ∨ m = 9 ∨ m = 11 then 30
  else 31

/-- Days in the months strictly before `m` in year `y`. -/
def daysBeforeMonth (y m : Nat) : Nat :=
  (List.range (m - 1)).foldl (fun acc i => acc + daysInMonth y (i + 1)) 0

/-- Day count with day 0 = 0001-01-01 (a Monday in the proleptic Gregorian
calendar, so `daysSinceCE % 7` is exactly Python's `date.weekday()`). -/
def daysSinceCE (y m d : Nat) : Nat :=
  365 * (y - 1) + (y - 1) / 4 + (y - 1) / 400 - (y - 1) / 100
    + daysBeforeMonth y m + (d - 1)

/-- Python's weekday names indexed by `date.weekday()` (Monday = 0),
as in the list literal inside `_rrule_to_ms_recurrence`. -/
def pyDayNames : List String :=
  ["monday", "tuesday", "wednesday", "thursday", "friday", "saturday", "sunday"]

/-- Parse `YYYY-MM-DD` as `datetime.strptime(s, '%Y-%m-%d')` does: three
dash-separated digit groups (4, 1-2, 1-2 digits), a valid calendar date. -/
def parseDateL (l : List Char) : Option (Nat × Nat × Nat) :=
  match splitChar '-' l with
  | [ys, ms, ds] =>
    if allDigits ys ∧ allDigits ms ∧ allDigits ds
        ∧ ys.length = 4 ∧ 1 ≤ ms.length ∧ ms.length ≤ 2
        ∧ 1 ≤ ds.length ∧ ds.length ≤ 2 then
      let y := digitsToNat ys
      let m := digitsToNat ms
      let d := digitsToNat ds
      if 1 ≤ y ∧ 1 ≤ m ∧ m ≤ 12 ∧ 1 ≤ d ∧ d ≤ daysInMonth y m then
        some (y, m, d)
      else none
    else none
  | _ => none

/-- String form of `parseDateL`. -/
def parseDate (s : String) : Option (Nat × Nat × Nat) := parseDateL s.data

/-- Parse `HH:MM[:SS]` (two-digit groups, valid ranges) to seconds. -/
def parseTimeL (l : List Char) : Option Nat :=
  match splitChar ':' l with
  | [hs, ms] =>
    if allDigits hs ∧ allDigits ms ∧ hs.length = 2 ∧ ms.length = 2 then
      let h := digitsToNat hs
      let m := digitsToNat ms
      if h ≤ 23 ∧ m ≤ 59 then some (h * 3600 + m * 60) else none
    else none
  | [hs, ms, ss] =>
    if allDigits hs ∧ allDigits ms ∧ allDigits ss
        ∧ hs.length = 2 ∧ ms.length = 2 ∧ ss.length = 2 then
      let h := digitsToNat hs
      let m := digitsToNat ms
      let s := digitsToNat ss
      if h ≤ 23 ∧ m ≤ 59 ∧ s ≤ 59 then some (h * 3600 + m * 60 + s) else none
    else none
  | _ => none

/-- Model of `datetime.fromisoformat(s.replace('Z', '+00:00'))` as used in
`apple/fetch.py`, returning seconds on an absolute scale.  A trailing
`+00:00` offset (UTC) is treated in the same frame as a naive value; other
offsets are outside the strings this code base produces and are rejected. -/
def pyFromIsoZ (s0 : String) : Option Nat :=
  let s := pyReplaceZ s0
  let l := s.data
  if l.contains 'T' then
    let datePart := l.takeWhile (fun a => a ≠ 'T')
    let timePart := (l.dropWhile (fun a => a ≠ 'T')).drop 1
    let timeCore :=
      if listStarts ['+', '0', '0', ':', '0', '0'] (timePart.drop (timePart.length - 6)) ∧ 6 ≤ timePart.length then
        timePart.take (timePart.length - 6)
      else timePart
    match parseDateL datePart, parseTimeL timeCore with
    | some (y, m, d), some secs => some (daysSinceCE y m d * 86400 + secs)
    | _, _ => none
  else
    match parseDateL l with
    | some (y, m, d) => some (daysSinceCE y m d * 86400)
    | none => none

end Dropcal


namespace Dropcal

/-! Section: the universal (Google-format) event model.

The universal event dict as consumed and produced by the transform modules.
A key that may be absent is an `Option` field; `start`/`end` sub-dicts are
`UTime` (an absent sub-dict is the all-`none` record, which no code path
distinguishes from an empty dict). -/

/-- A `start`/`end` sub-dict of a universal event. -/
structure UTime where
  date : Option String := none
  dateTime : Option String := none
  timeZone : Option String := none
deriving DecidableEq

/-- A universal-format attendee. -/
structure UAttendee where
  email : Option String := none
  displayName : Option String := none
  responseStatus : Option String := none
deriving DecidableEq

/-- A universal-format event (`id`, `summary`, `description`, `location`,
`status`, `start`, `end`, `attendees`, `recurrence`, `colorId`,
`_microsoft_categories`). -/
structure UEvent where
  id : Option String := none
  summary : Option String := none
  description : Option String := none
  location : Option String := none
  status : Option String := none
  start : UTime := {}
  end_ : UTime := {}
  attendees : Option (List UAttendee) := none
  recurrence : Option (List String) := none
  colorId : Option String := none
  microsoftCategories : Option (List String) := none
deriving DecidableEq

deriving instance DecidableEq for Except

/-- The payload of an `ok`, with a default for `error`. -/
def exceptOkD {e a : Type} (d : a) : Except e a → a
  | Except.ok x => x
  | Except.error _ => d

/-- Did the computation succeed (no exception raised). -/
def exceptIsOk {e a : Type} : Except e a → Bool
  | Except.ok _ => true
  | Except.error _ => false

/-- Truthiness of an optional list (`None` and `[]` are falsy). -/
def pyTruthyOL {α : Type} : Option (List α) → Bool
  | none => false
  | some l => !l.isEmpty

namespace Microsoft

/-! Section: the Microsoft Graph event model (`microsoft/transform.py`). -/

/-- A Microsoft `start`/`end` sub-dict. -/
structure MsTime where
  dateTime : Option String := none
  timeZone : Option String := none
deriving DecidableEq

/-- The `attendee.emailAddress` sub-dict. -/
structure MsEmailAddress where
  address : Option String := none
  name : Option String := none
deriving DecidableEq

/-- A Microsoft attendee; `status` holds `status.response` when present. -/
structure MsAttendee where
  emailAddress : MsEmailAddress := {}
  type : String := ""
  status : Option String := none
deriving DecidableEq

/-- The `recurrence.pattern` dict as built by `_rrule_to_ms_recurrence`. -/
structure MsPattern where
  interval : Int := 1
  firstDayOfWeek : String := "sunday"
  type : String := ""
  daysOfWeek : Option (List String) := none
  month : Option Int := none
  dayOfMonth : Option Int := none
deriving DecidableEq

/-- The `recurrence.range` dict as built by `_rrule_to_ms_recurrence`. -/
structure MsRange where
  type : String := ""
  startDate : String := ""
  endDate : Option String := none
  numberOfOccurrences : Option Int := none
deriving DecidableEq

/-- A Microsoft Graph recurrence object. -/
structure MsRecurrence where
  pattern : MsPattern
  range : MsRange
deriving DecidableEq

/-- A Microsoft Graph event dict. -/
structure MsEvent where
  id : Option String := none
  subject : String := ""
  bodyContentType : String := "text"
  bodyContent : String := ""
  location : Option String := none
  isAllDay : Option Bool := none
  isCancelled : Option Bool := none
  start : Option MsTime := none
  end_ : Option MsTime := none
  attendees : Option (List MsAttendee) := none
  recurrence : Option MsRecurrence := none
  categories : Option (List String) := none
deriving DecidableEq

/-- Model of `_convert_response_status`: the lookup uses `ms_response.lower()` against
the literal keys of the source's `status_map` (so the mixed-case key
`tentativelyAccepted` is never hit by a lowered string, exactly as in the
source). -/
def convert_response_status (msResponse : Option String) : String :=
  match msResponse with
  | none => "needsAction"
  | some r =>
    if !pyTruthyS r then ("needsAction")
    else
      let statusMap : List (String × String) :=
        [("accepted", "accepted"), ("declined", "declined"),
         ("tentativelyAccepted", "tentativelyAccepted"),
         ("tentative", "tentativelyAccepted"),
         ("notResponded", "needsAction"), ("none", "needsAction")]
      (dictGet statusMap (pyLower r)).getD ("needsAction")

/-- The `_map_category_to_color` lookup table (keys already lower-case). -/
def categoryColorMap : List (String × String) :=
  [("school", "2"), ("academic", "2"), ("class", "2"), ("homework", "2"), ("study", "2"),
   ("important", "11"), ("urgent", "11"), ("deadline", "11"), ("critical", "11"),
   ("personal", "9"), ("private", "9"),
   ("work", "10"), ("business", "10"), ("project", "10"),
   ("meeting", "5"), ("appointment", "5"),
   ("social", "3"), ("event", "3"), ("party", "3"),
   ("travel", "6"), ("trip", "6"),
   ("birthday", "4"), ("holiday", "4"), ("family", "7")]

/-- Model of `_map_category_to_color`. -/
def map_category_to_color (category : String) : String :=
  (dictGet categoryColorMap (pyLower category)).getD ("1")

/-- The `_map_color_to_category` lookup table. -/
def colorCategoryMap : List (String × String) :=
  [("1", "General"), ("2", "Academic"), ("3", "Social"), ("4", "Personal"),
   ("5", "Meeting"), ("6", "Travel"), ("7", "Family"), ("8", "Other"),
   ("9", "Personal"), ("10", "Work"), ("11", "Important")]

/-- Model of `_map_color_to_category`. -/
def map_color_to_category (colorId : String) : String :=
  (dictGet colorCategoryMap colorId).getD ("General")

/-- The RRULE parameter dict: split on `;`, then each part containing `=`
is split at the first `=` (`part.split('=', 1)`), later assignments to the
same key overwriting earlier ones. -/
def parseRRuleParams (rule : List Char) : List (String × String) :=
  (splitChar ';' rule).foldl (fun ps part =>
    if part.contains '=' then
      dictInsert ps (String.mk (part.takeWhile (fun c => c ≠ '=')))
        (String.mk ((part.dropWhile (fun c => c ≠ '=')).drop 1))
    else ps) []

/-- Model of `rule[6:] if rule.startswith('RRULE:') else rule`. -/
def stripRRulePrefix (rule : String) : String :=
  if listStarts ("RRULE:").data rule.data then pyDrop 6 rule else rule

/-- The `day_map` from RRULE day codes to Microsoft day names. -/
def rruleDayMap : List (String × String) :=
  [("MO", "monday"), ("TU", "tuesday"), ("WE", "wednesday"),
   ("TH", "thursday"), ("FR", "friday"), ("SA", "saturday"), ("SU", "sunday")]

/-- The weekly branch with empty `BYDAY`: default `daysOfWeek` to the weekday
of the start date; on a `strptime` failure fall back to `['monday']`; when
the start dict yields an empty string, `daysOfWeek` is never set. -/
def weeklyDefaultDays (start : UTime) : Option (List String) :=
  let startDt := pyOrS start.dateTime (start.date.getD (""))
  if pyTruthyS startDt then
    match parseDate (pyTake 10 startDt) with
    | some (y, m, d) => some [pyDayNames.getD (daysSinceCE y m d % 7) ("")]
    | none => some [("monday")]
  else none

/-- The `range` part of `_rrule_to_ms_recurrence`: `noEnd` unless `UNTIL`
(at least 8 characters, reformatted `YYYY-MM-DD`) or `COUNT` (via `int()`,
whose failure is a `ValueError`) is present; `UNTIL` shorter than 8
characters leaves the type `noEnd`. -/
def buildMsRange (params : List (String × String)) (start : UTime) : Except String MsRange :=
  let startDate := pyTake 10 (pyOrS start.dateTime (start.date.getD ("")))
  if dictHas params ("UNTIL") then
    let uv := (dictGet params ("UNTIL")).getD ("")
    if 8 ≤ uv.data.length then
      Except.ok { type := "endDate", startDate := startDate,
                  endDate := some (pyTake 4 uv ++ "-" ++ pyTake 2 (pyDrop 4 uv) ++ "-" ++ pyTake 2 (pyDrop 6 uv)) }
    else Except.ok { type := "noEnd", startDate := startDate }
  else if dictHas params ("COUNT") then
    match pyInt ((dictGet params ("COUNT")).getD ("")) with
    | some c => Except.ok { type := "numbered", startDate := startDate, numberOfOccurrences := some c }
    | none => Except.error ("ValueError: invalid COUNT")
  else Except.ok { type := "noEnd", startDate := startDate }

/-- Model of `_rrule_to_ms_recurrence`: parse the first RRULE into a Microsoft
pattern/range.  `Except.error` models a raised `ValueError` (from `int()`),
`Except.ok none` models the source's `return None` (empty list or
unsupported `FREQ`). -/
def rrule_to_ms_recurrence (rruleList : List String) (start : UTime) :
    Except String (Option MsRecurrence) :=
  match rruleList with
  | [] => Except.ok none
  | rule0 :: _ =>
    let params := parseRRuleParams (stripRRulePrefix rule0).data
    let freq := (dictGet params ("FREQ")).getD ("")
    match pyInt ((dictGet params ("INTERVAL")).getD ("1")) with
    | none => Except.error ("ValueError: invalid INTERVAL")
    | some interval =>
      if freq = "DAILY" then
        (buildMsRange params start).map (fun rg =>
          some ⟨{ interval := interval, type := "daily" }, rg⟩)
      else if freq = "WEEKLY" then
        let byday := (dictGet params ("BYDAY")).getD ("")
        let dow : Option (List String) :=
          if pyTruthyS byday then
            some ((splitChar ',' byday.data).filterMap (fun d => dictGet rruleDayMap (String.mk d)))
          else weeklyDefaultDays start
        (buildMsRange params start).map (fun rg =>
          some ⟨{ interval := interval, type := "weekly", daysOfWeek := dow }, rg⟩)
      else if freq = "MONTHLY" then
        let bmd := dictGet params ("BYMONTHDAY")
        if pyTruthyOS bmd then
          match pyInt (bmd.getD ("")) with
          | some n => (buildMsRange params start).map (fun rg =>
              some ⟨{ interval := interval, type := "absoluteMonthly", dayOfMonth := some n }, rg⟩)
          | none => Except.error ("ValueError: invalid BYMONTHDAY")
        else
          (buildMsRange params start).map (fun rg =>
            some ⟨{ interval := interval, type := "absoluteMonthly", dayOfMonth := some 1 }, rg⟩)
      else if freq = "YEARLY" then
        (buildMsRange params start).map (fun rg =>
          some ⟨{ interval := interval, type := "absoluteYearly", month := some 1, dayOfMonth := some 1 }, rg⟩)
      else Except.ok none

/-- Python `str()` of the pattern dict exactly as `_rrule_to_ms_recurrence`
builds it: insertion order `interval`, `firstDayOfWeek`, `type`, then
`daysOfWeek` (weekly), `month` before `dayOfMonth` (yearly), or
`dayOfMonth` (monthly). -/
def pyStrMsPattern (p : MsPattern) : String :=
  "\x7b\x27interval\x27: " ++ pyIntRepr p.interval
    ++ ", \x27firstDayOfWeek\x27: \x27" ++ p.firstDayOfWeek
    ++ "\x27, \x27type\x27: \x27" ++ p.type ++ "\x27"
    ++ (match p.daysOfWeek with
        | some l => ", \x27daysOfWeek\x27: [" ++
            joinSep (", ") (l.map (fun s => "\x27" ++ s ++ "\x27")) ++ "]"
        | none => "")
    ++ (match p.month with
        | some n => ", \x27month\x27: " ++ pyIntRepr n
        | none => "")
    ++ (match p.dayOfMonth with
        | some n => ", \x27dayOfMonth\x27: " ++ pyIntRepr n
        | none => "")
    ++ "\x7d"

/-- Python `str()` of the range dict (insertion order `type`, `startDate`,
then `endDate` or `numberOfOccurrences`). -/
def pyStrMsRange (r : MsRange) : String :=
  "\x7b\x27type\x27: \x27" ++ r.type ++ "\x27, \x27startDate\x27: \x27" ++ r.startDate ++ "\x27"
    ++ (match r.endDate with
        | some e => ", \x27endDate\x27: \x27" ++ e ++ "\x27"
        | none => "")
    ++ (match r.numberOfOccurrences with
        | some n => ", \x27numberOfOccurrences\x27: " ++ pyIntRepr n
        | none => "")
    ++ "\x7d"

/-- Python `str()` of the whole recurrence dict. -/
def pyStrMsRecurrence (r : MsRecurrence) : String :=
  "\x7b\x27pattern\x27: " ++ pyStrMsPattern r.pattern
    ++ ", \x27range\x27: " ++ pyStrMsRange r.range ++ "\x7d"

/-- Model of `from_universal`: universal event to Microsoft Graph format.
`Except.error` models a raised exception (`TypeError` on an all-day start
without an end date, `ValueError` from RRULE `int()` parsing). -/
def from_universal (u : UEvent) : Except String MsEvent :=
  let base : MsEvent := { subject := u.summary.getD (""), bodyContent := u.description.getD ("") }
  let withLoc := if pyTruthyOS u.location then { base with location := u.location } else base
  let timed : Except String MsEvent :=
    if u.start.date.isSome then
      match u.end_.date with
      | none => Except.error ("TypeError: unsupported operand type")
      | some ed =>
        Except.ok { withLoc with
          isAllDay := some true,
          start := some { dateTime := some ((u.start.date.getD ("")) ++ "T00:00:00"),
                          timeZone := some (u.start.timeZone.getD ("UTC")) },
          end_ := some { dateTime := some (ed ++ "T00:00:00"),
                         timeZone := some (u.end_.timeZone.getD ("UTC")) } }
    else
      Except.ok { withLoc with
        isAllDay := some false,
        start := if pyTruthyOS u.start.dateTime then
            some { dateTime := u.start.dateTime, timeZone := some (u.start.timeZone.getD ("UTC")) }
          else none,
        end_ := if pyTruthyOS u.end_.dateTime then
            some { dateTime := u.end_.dateTime, timeZone := some (u.end_.timeZone.getD ("UTC")) }
          else none }
  timed.bind (fun ev1 =>
    let ev2 :=
      if pyTruthyOL u.attendees then
        { ev1 with attendees := some ((u.attendees.getD []).map (fun a =>
            { emailAddress := { address := a.email,
                                name := match a.displayName with
                                        | some d => some d
                                        | none => a.email },
              type := "required" })) }
      else ev1
    let recRules := u.recurrence.getD []
    let withRec : Except String MsEvent :=
      if pyTruthyOL u.recurrence then
        match rrule_to_ms_recurrence recRules u.start with
        | Except.error e => Except.error e
        | Except.ok (some r) => Except.ok { ev2 with recurrence := some r }
        | Except.ok none => Except.ok ev2
      else Except.ok ev2
    withRec.map (fun ev3 =>
      if pyTruthyOL u.microsoftCategories then
        { ev3 with categories := u.microsoftCategories }
      else if pyTruthyOS u.colorId then
        { ev3 with categories := some [map_color_to_category (u.colorId.getD (""))] }
      else ev3))

/-- Model of `to_universal`: Microsoft Graph event to universal format.  The
recurrence, when present, becomes `'RRULE:' + str(recurrence_dict)` — the
Python string representation of the dict, not an RRULE. -/
def to_universal (m : MsEvent) : UEvent :=
  let uStart : UTime := match m.start with
    | some st => { dateTime := st.dateTime, timeZone := some (st.timeZone.getD ("UTC")) }
    | none => {}
  let uEnd : UTime := match m.end_ with
    | some st => { dateTime := st.dateTime, timeZone := some (st.timeZone.getD ("UTC")) }
    | none => {}
  let allDay := m.isAllDay.getD false
  { id := m.id,
    summary := some m.subject,
    description := some m.bodyContent,
    status := some (if m.isCancelled.getD false then ("cancelled") else ("confirmed")),
    location := if pyTruthyOS m.location then m.location else none,
    start := if allDay then
        { date := some (pySplitHead 'T' (match m.start with
            | some st => st.dateTime.getD ("")
            | none => "")) }
      else uStart,
    end_ := if allDay then
        { date := some (pySplitHead 'T' (match m.end_ with
            | some st => st.dateTime.getD ("")
            | none => "")) }
      else uEnd,
    attendees := if pyTruthyOL m.attendees then
        some ((m.attendees.getD []).map (fun a =>
          { email := a.emailAddress.address,
            displayName := a.emailAddress.name,
            responseStatus := some (convert_response_status a.status) }))
      else none,
    recurrence := match m.recurrence with
      | some r => some [("RRULE:") ++ pyStrMsRecurrence r]
      | none => none,
    microsoftCategories := if pyTruthyOL m.categories then m.categories else none,
    colorId := if pyTruthyOL m.categories then
        some (map_category_to_color ((m.categories.getD []).headD ("")))
      else none }

end Microsoft

end Dropcal


namespace Dropcal

/-- An entry of `all_conflicts`: the proposed event together with the
conflicting events found for it. -/
structure ConflictInfo where
  proposedEvent : UEvent
  conflictingEvents : List UEvent
deriving DecidableEq

namespace Apple

/-! Section: conflict detection (`apple/fetch.py`). -/

/-- The per-event test of the `check_conflicts` loop: skip `cancelled`
events, require both `start.dateTime` and `end.dateTime` to be present and
truthy, parse them, and keep the event iff `event_start_dt < end_dt and
event_end_dt > start_dt`.  A parse failure is caught by the per-item
handler and skips the event. -/
def conflictKeep (csec cesec : Nat) (ev : UEvent) : Bool :=
  if ev.status = some ("cancelled") then false
  else
    match ev.start.dateTime, ev.end_.dateTime with
    | some es, some ee =>
      if pyTruthyS es ∧ pyTruthyS ee then
        match pyFromIsoZ es, pyFromIsoZ ee with
        | some esv, some eev => decide (esv < cesec ∧ eev > csec)
        | _, _ => false
      else false
    | _, _ => false

/-- Model of `check_conflicts` from `apple/fetch.py` applied to the list of events
fetched and parsed from the CalDAV window (one parsed event per response
item).  A candidate-time parse failure raises `ValueError`, re-raised by the
outer handler. -/
def check_conflicts (startTime endTime : String) (fetched : List UEvent) :
    Except String (List UEvent) :=
  match pyFromIsoZ startTime, pyFromIsoZ endTime with
  | some cs, some ce => Except.ok (fetched.filter (conflictKeep cs ce))
  | _, _ => Except.error ("Failed to check Apple Calendar conflicts")

/-! Section: `parse_ical_string` (`apple/transform.py`). -/

/-- An iCalendar component as yielded by `Calendar.from_ical(s).walk()`:
its component name plus an abstract payload standing for the icalendar
library object. -/
structure ICalComp (a : Type) where
  name : String
  payload : a
deriving DecidableEq

/-- Model of `parse_ical_string`, parameterized over the external icalendar library:
`fromIcal` models `Calendar.from_ical` + `walk()` (its exceptions are the
`error` case) and `toUniv` models `to_universal` on one component.  The
outer `try` turns a document parse failure into `[]`; the inner `try`
skips a component whose conversion raises; everything else is appended in
order. -/
def parse_ical_string {a : Type} (fromIcal : String → Except String (List (ICalComp a)))
    (toUniv : ICalComp a → Except String UEvent) (s : String) : List UEvent :=
  match fromIcal s with
  | Except.error _ => []
  | Except.ok comps =>
    comps.foldl (fun acc c =>
      if c.name = "VEVENT" then
        match toUniv c with
        | Except.ok u => acc ++ [u]
        | Except.error _ => acc
      else acc) []

end Apple

namespace Microsoft

/-! Section: batch synchronization (`microsoft/create.py`).

The remote Graph API is modelled from the spec (the HTTP layer and the
`microsoft/fetch.py`/`microsoft/auth.py` modules are not under src/): a
`POST` attempt either succeeds, storing the event and returning it with a
fresh id, or fails at network level (`netOk` selects which attempts
succeed, by attempt number). -/

/-- Modelled from the spec: the remote Microsoft calendar — events created
so far and the number of create (POST) attempts. -/
structure MsRemoteState where
  events : List MsEvent := []
  createCalls : Nat := 0
deriving DecidableEq

/-- Modelled from the spec: the id assigned by the Graph API to the `n`-th
created event. -/
def msRemoteId (n : Nat) : String := "ms-evt-" ++ natRepr n

/-- Model of `create_event` from `microsoft/create.py`: convert with
`from_universal` (an exception propagates to the caller), `POST`, and
return `to_universal` of the response, or `None` on a request failure. -/
def create_event (netOk : Nat → Bool) (st : MsRemoteState) (u : UEvent) :
    Except String (Option UEvent) × MsRemoteState :=
  match from_universal u with
  | Except.error e => (Except.error e, st)
  | Except.ok ms =>
    let n := st.createCalls
    if netOk n then
      let created := { ms with id := some (msRemoteId n) }
      (Except.ok (some (to_universal created)),
       { events := st.events ++ [created], createCalls := n + 1 })
    else
      (Except.ok none, { events := st.events, createCalls := n + 1 })

/-- Modelled from the spec: `microsoft/fetch.check_conflicts` is not under
src/; per spec §4.2-§4.3 every adapter applies the same detector — fetch
the remote events in the window, convert to universal format, and apply
the shared half-open overlap test excluding `cancelled` events. -/
def ms_check_conflicts (st : MsRemoteState) (startTime endTime : String) :
    Except String (List UEvent) :=
  match pyFromIsoZ startTime, pyFromIsoZ endTime with
  | some cs, some ce =>
    Except.ok ((st.events.map to_universal).filter (Apple.conflictKeep cs ce))
  | _, _ => Except.error ("Failed to check Microsoft Calendar conflicts")

/-- The body of the `for event in events` loop of
`create_events_from_session`: conflict-check when both `start.dateTime`
and `end.dateTime` are truthy (a conflict-check exception is printed and
creation proceeds anyway), record a conflict and skip creation when
conflicts are found, otherwise create; any creation failure or exception
is printed and the loop continues. -/
def msProcessEvent (netOk : Nat → Bool)
    (acc : (List String × List ConflictInfo) × MsRemoteState) (event : UEvent) :
    (List String × List ConflictInfo) × MsRemoteState :=
  let ids := acc.1.1
  let confs := acc.1.2
  let st := acc.2
  let startTime := event.start.dateTime
  let endTime := event.end_.dateTime
  let conflictStop : Option (List UEvent) :=
    if pyTruthyOS startTime ∧ pyTruthyOS endTime then
      match ms_check_conflicts st (startTime.getD ("")) (endTime.getD ("")) with
      | Except.ok cs => if !cs.isEmpty then some cs else none
      | Except.error _ => none
    else none
  match conflictStop with
  | some cs => ((ids, confs ++ [⟨event, cs⟩]), st)
  | none =>
    match create_event netOk st event with
    | (Except.error _, st2) => ((ids, confs), st2)
    | (Except.ok none, st2) => ((ids, confs), st2)
    | (Except.ok (some created), st2) =>
      if pyTruthyOS created.id then ((ids ++ [created.id.getD ("")], confs), st2)
      else ((ids, confs), st2)

/-- Model of `create_events_from_session` from `microsoft/create.py` (session lookup
abstracted into the `events` argument): raises `ValueError` for an empty
batch and for a missing authentication, then folds the per-event loop,
returning `(calendar_event_ids, all_conflicts)`. -/
def create_events_from_session (netOk : Nat → Bool) (authOk : Bool)
    (events : List UEvent) (st : MsRemoteState) :
    Except String ((List String × List ConflictInfo) × MsRemoteState) :=
  if events.isEmpty then Except.error ("No processed events in session")
  else if !authOk then Except.error ("User not authenticated with Microsoft Calendar")
  else Except.ok (events.foldl (msProcessEvent netOk) (([], []), st))

end Microsoft

namespace Apple

/-! Section: batch synchronization (`apple/create.py`). -/

/-- A `provider_syncs` row. -/
structure SyncRecord where
  universalEventId : String
  provider : String
  providerEventId : String
  calendarId : String
deriving DecidableEq

/-- Modelled from the spec: `EventService.sync_to_provider` (the events
service is not under src/) writes a `ProviderSyncRecord`; the persistence
layer enforces the unique key `(universalEventId, provider)` (spec §3, §5),
so a duplicate write is rejected and leaves the ledger unchanged. -/
def sync_to_provider (ledger : List SyncRecord)
    (eventId provider providerEventId calendarId : String) : List SyncRecord :=
  if ledger.any (fun r => r.universalEventId == eventId && r.provider == provider) then ledger
  else ledger ++ [⟨eventId, provider, providerEventId, calendarId⟩]

/-- Modelled from the spec: the remote CalDAV calendar (events saved so
far, in universal shape: a later fetch parses the saved VEVENT back), the
sync ledger, and the number of save attempts. -/
structure AppleState where
  remote : List UEvent := []
  ledger : List SyncRecord := []
  createCalls : Nat := 0
deriving DecidableEq

/-- Model of `create_event` from `apple/create.py`: convert to iCalendar, save to
the calendar, and return the original `event_data` (CalDAV does not return
the created event).  The save is modelled as appending the universal event
to the remote calendar, succeeding for the well-formed events considered
here. -/
def create_event (st : AppleState) (eventData : UEvent) : Option UEvent × AppleState :=
  (some eventData,
   { st with remote := st.remote ++ [eventData], createCalls := st.createCalls + 1 })

/-- The body of the `for event_data, dropcal_event_id in event_tuples` loop
of apple `create_events_from_session`: conflict-check when both times are
truthy (an exception there is printed and creation proceeds), record a
conflict and skip creation when conflicts are found, otherwise create;
after a successful creation the id defaults to
`f'apple-event-N'` and, when a dropcal event id is present,
`sync_to_provider` records the sync. -/
def appleProcessEvent (calendarId : String)
    (acc : (List String × List ConflictInfo) × AppleState) (et : UEvent × Option String) :
    (List String × List ConflictInfo) × AppleState :=
  let ids := acc.1.1
  let confs := acc.1.2
  let st := acc.2
  let eventData := et.1
  let startTime := eventData.start.dateTime
  let endTime := eventData.end_.dateTime
  let conflictStop : Option (List UEvent) :=
    if pyTruthyOS startTime ∧ pyTruthyOS endTime then
      match check_conflicts (startTime.getD ("")) (endTime.getD ("")) st.remote with
      | Except.ok cs => if !cs.isEmpty then some cs else none
      | Except.error _ => none
    else none
  match conflictStop with
  | some cs => ((ids, confs ++ [⟨eventData, cs⟩]), st)
  | none =>
    match create_event st eventData with
    | (some created, st2) =>
      let providerEventId := created.id.getD ("apple-event-" ++ natRepr ids.length)
      let ledger2 := match et.2 with
        | some did => sync_to_provider st2.ledger did ("apple") providerEventId calendarId
        | none => st2.ledger
      ((ids ++ [providerEventId], confs), { st2 with ledger := ledger2 })
    | (none, st2) => ((ids, confs), st2)

/-- apple `create_events_from_session` over the prepared event tuples (the
session and events-table reads that build `event_tuples` are abstracted
into the argument): raises when unauthenticated, then folds the per-event
loop, returning `(calendar_event_ids, all_conflicts)`. -/
def create_events_from_session (authOk : Bool) (calendarId : String)
    (eventTuples : List (UEvent × Option String)) (st : AppleState) :
    Except String ((List String × List ConflictInfo) × AppleState) :=
  if !authOk then Except.error ("User not authenticated with Apple Calendar")
  else Except.ok (eventTuples.foldl (appleProcessEvent calendarId) (([], []), st))

end Apple

end Dropcal


namespace Dropcal

/-! Section: concrete events and runs used in the scenario theorems. -/

/-- Existing event A of the conflict scenario, `[14:00, 15:00)` on 2026-03-02. -/
def evA : UEvent :=
  { summary := some ("A"), status := some ("confirmed"),
    start := { dateTime := some ("2026-03-02T14:00:00"), timeZone := some ("UTC") },
    end_ := { dateTime := some ("2026-03-02T15:00:00"), timeZone := some ("UTC") } }

/-- Existing event B of the conflict scenario, `[14:30, 15:30)` on 2026-03-02. -/
def evB : UEvent :=
  { summary := some ("B"), status := some ("confirmed"),
    start := { dateTime := some ("2026-03-02T14:30:00"), timeZone := some ("UTC") },
    end_ := { dateTime := some ("2026-03-02T15:30:00"), timeZone := some ("UTC") } }

/-- An all-day universal event, `start.date = 2026-02-25`, `end.date = 2026-02-26`. -/
def allDayEvent : UEvent :=
  { summary := some ("Trip"),
    start := { date := some ("2026-02-25") },
    end_ := { date := some ("2026-02-26") } }

/-- The RRULE scenario event: `RRULE:FREQ=WEEKLY;BYDAY=TU,TH`, start Monday
2026-02-02. -/
def weeklyByDayEvent : UEvent :=
  { summary := some ("Weekly sync"),
    start := { dateTime := some ("2026-02-02T09:00:00"), timeZone := some ("UTC") },
    end_ := { dateTime := some ("2026-02-02T10:00:00"), timeZone := some ("UTC") },
    recurrence := some [("RRULE:FREQ=WEEKLY;BYDAY=TU,TH")] }

/-- The Microsoft recurrence the scenario RRULE converts to. -/
def scenarioMsRec : Microsoft.MsRecurrence :=
  { pattern := { interval := 1, type := "weekly", daysOfWeek := some [("tuesday"), ("thursday")] },
    range := { type := "noEnd", startDate := "2026-02-02" } }

/-- The universal event obtained by converting the scenario event to
Microsoft format and back. -/
def weeklyRoundUniversal : UEvent :=
  Microsoft.to_universal (exceptOkD {} (Microsoft.from_universal weeklyByDayEvent))

/-- Batch event #1 of the partial-failure scenario, `[09:00, 10:00)`. -/
def ev1 : UEvent :=
  { summary := some ("E1"),
    start := { dateTime := some ("2026-03-02T09:00:00"), timeZone := some ("UTC") },
    end_ := { dateTime := some ("2026-03-02T10:00:00"), timeZone := some ("UTC") } }

/-- Batch event #2 of the partial-failure scenario: its RRULE has
`INTERVAL=abc`, so `int()` raises inside `from_universal`. -/
def evBadRRule : UEvent :=
  { summary := some ("E2"),
    start := { dateTime := some ("2026-03-02T11:00:00"), timeZone := some ("UTC") },
    end_ := { dateTime := some ("2026-03-02T12:00:00"), timeZone := some ("UTC") },
    recurrence := some [("RRULE:FREQ=WEEKLY;INTERVAL=abc")] }

/-- Batch event #3 of the partial-failure scenario, `[13:00, 14:00)`. -/
def ev3 : UEvent :=
  { summary := some ("E3"),
    start := { dateTime := some ("2026-03-02T13:00:00"), timeZone := some ("UTC") },
    end_ := { dateTime := some ("2026-03-02T14:00:00"), timeZone := some ("UTC") } }

/-- Default result used to project a successful run. -/
def msDflt : (List String × List ConflictInfo) × Microsoft.MsRemoteState := (([], []), {})

/-- Default result used to project a successful apple run. -/
def apDflt : (List String × List ConflictInfo) × Apple.AppleState := (([], []), {})

/-- First Microsoft run of the all-day batch. -/
def msAllDayRun1 := Microsoft.create_events_from_session (fun _ => true) true [allDayEvent] {}

/-- Second Microsoft run of the identical all-day batch. -/
def msAllDayRun2 :=
  Microsoft.create_events_from_session (fun _ => true) true [allDayEvent] (exceptOkD msDflt msAllDayRun1).2

/-- First Microsoft run of the one timed event batch. -/
def msTimedRun1 := Microsoft.create_events_from_session (fun _ => true) true [ev1] {}

/-- Second Microsoft run of the identical timed batch. -/
def msTimedRun2 :=
  Microsoft.create_events_from_session (fun _ => true) true [ev1] (exceptOkD msDflt msTimedRun1).2

/-- The apple event tuples of the all-day batch (dropcal event id `ev-1`). -/
def apTuples : List (UEvent × Option String) := [(allDayEvent, some ("ev-1"))]

/-- First apple run of the all-day batch. -/
def apRun1 := Apple.create_events_from_session true ("primary") apTuples {}

/-- Second apple run of the identical all-day batch. -/
def apRun2 :=
  Apple.create_events_from_session true ("primary") apTuples (exceptOkD apDflt apRun1).2

/-- The three-event Microsoft batch in which event #2 fails transformation. -/
def msScenarioRun := Microsoft.create_events_from_session (fun _ => true) true [ev1, evBadRRule, ev3] {}

end Dropcal

namespace Dropcal

/-- A cancelled event on the scenario day, used to instantiate the
cancelled-exclusion part of the conflict theorems. -/
def evCancelled : UEvent :=
  { summary := some ("C"), status := some ("cancelled"),
    start := { dateTime := some ("2026-03-02T14:30:00"), timeZone := some ("UTC") },
    end_ := { dateTime := some ("2026-03-02T15:30:00"), timeZone := some ("UTC") } }

set_option maxRecDepth 8000 in
/-- C1: counterexample.  The scenario RRULE `FREQ=WEEKLY;BYDAY=TU,TH`
converts to Microsoft format successfully, but converting back does not
yield an equivalent RRULE: the recurrence list changes, and the
round-tripped string has no `FREQ` component at all (it is the Python
`str()` of the recurrence dict). -/
theorem rrule_roundtrip_loses_freq :
    exceptIsOk (Microsoft.from_universal weeklyByDayEvent) = true
    ∧ weeklyRoundUniversal.recurrence ≠ weeklyByDayEvent.recurrence
    ∧ dictGet (Microsoft.parseRRuleParams
        (Microsoft.stripRRulePrefix ((weeklyRoundUniversal.recurrence.getD []).headD (""))).data)
        ("FREQ") = none := by
  refine ⟨by decide, by decide, by decide⟩

set_option maxRecDepth 8000 in
/-- C1 (amended): the forward conversion of the scenario RRULE produces the
Microsoft pattern/range the spec describes (weekly, `[tuesday, thursday]`,
interval 1, `noEnd` from `2026-02-02`), but `to_universal` does not invert
it: the round-tripped recurrence is `'RRULE:' +` the Python string
representation of the recurrence dict, which is not an equivalent RRULE. -/
theorem rrule_forward_ok_backward_stringified :
    (exceptOkD {} (Microsoft.from_universal weeklyByDayEvent)).recurrence = some scenarioMsRec
    ∧ weeklyRoundUniversal.recurrence =
        some [("RRULE:") ++ Microsoft.pyStrMsRecurrence scenarioMsRec] := by
  refine ⟨by decide, by decide⟩

namespace Apple

/-- C3: counterexample.  Against existing events A `[14:00,15:00)` and
B `[14:30,15:30)`, the candidate `[15:00,16:00)` does not return "neither":
B's interval genuinely overlaps the candidate in `[15:00,15:30)`, and
`check_conflicts` returns exactly `[B]`. -/
theorem candidate_after_A_returns_B :
    check_conflicts ("2026-03-02T15:00:00") ("2026-03-02T16:00:00") [evA, evB] = Except.ok [evB]
    ∧ check_conflicts ("2026-03-02T15:00:00") ("2026-03-02T16:00:00") [evA, evB]
        ≠ Except.ok ([] : List UEvent) := by
  refine ⟨by decide, by decide⟩

/-- C3 (amended): for a candidate half-open interval whose bounds parse,
`check_conflicts` returns exactly the fetched events passing the per-event
test; a non-cancelled timed event passes iff `es < ce ∧ ee > cs`; a
cancelled event never passes; and the scenario candidate `[14:00,15:00)`
returns both A and B (the candidate `[15:00,16:00)` returns exactly B, not
neither — see the counterexample). -/
theorem check_conflicts_exactly_overlapping
    (startTime endTime : String) (cs ce : Nat)
    (h1 : pyFromIsoZ startTime = some cs) (h2 : pyFromIsoZ endTime = some ce)
    (items : List UEvent) (ev : UEvent) (es ee : String) (esv eev : Nat)
    (hst : ev.status ≠ some ("cancelled"))
    (hes : ev.start.dateTime = some es) (hee : ev.end_.dateTime = some ee)
    (hesv : pyFromIsoZ es = some esv) (heev : pyFromIsoZ ee = some eev)
    (evc : UEvent) (hc : evc.status = some ("cancelled")) :
    check_conflicts startTime endTime items = Except.ok (items.filter (conflictKeep cs ce))
    ∧ (conflictKeep cs ce ev = true ↔ (esv < ce ∧ eev > cs))
    ∧ conflictKeep cs ce evc = false
    ∧ check_conflicts ("2026-03-02T14:00:00") ("2026-03-02T15:00:00") [evA, evB]
        = Except.ok [evA, evB] := by
  refine ⟨?_, ?_, ?_, by decide⟩
  · unfold check_conflicts
    rw [h1, h2]
  · have hz : pyFromIsoZ ("") = none := by decide
    have hesne : es ≠ "" := by
      intro h
      rw [h, hz] at hesv
      exact Option.noConfusion hesv
    have heene : ee ≠ "" := by
      intro h
      rw [h, hz] at heev
      exact Option.noConfusion heev
    have hts : pyTruthyS es = true := by
      unfold pyTruthyS
      simp [bne_iff_ne, hesne]
    have hte : pyTruthyS ee = true := by
      unfold pyTruthyS
      simp [bne_iff_ne, heene]
    unfold conflictKeep
    rw [if_neg hst, hes, hee]
    simp [hts, hte, hesv, heev]
  · unfold conflictKeep
    rw [if_pos hc]

/-- Witness for the C3 theorem: instantiated at the scenario candidate
`[15:00,16:00)` with event B and the cancelled event. -/
theorem check_conflicts_exactly_overlapping_witness :
    check_conflicts ("2026-03-02T15:00:00") ("2026-03-02T16:00:00") [evA, evB]
        = Except.ok ([evA, evB].filter (conflictKeep (daysSinceCE 2026 3 2 * 86400 + 54000) (daysSinceCE 2026 3 2 * 86400 + 57600)))
    ∧ (conflictKeep (daysSinceCE 2026 3 2 * 86400 + 54000) (daysSinceCE 2026 3 2 * 86400 + 57600) evB = true
        ↔ (daysSinceCE 2026 3 2 * 86400 + 52200 < daysSinceCE 2026 3 2 * 86400 + 57600
            ∧ daysSinceCE 2026 3 2 * 86400 + 55800 > daysSinceCE 2026 3 2 * 86400 + 54000))
    ∧ conflictKeep (daysSinceCE 2026 3 2 * 86400 + 54000) (daysSinceCE 2026 3 2 * 86400 + 57600) evCancelled = false
    ∧ check_conflicts ("2026-03-02T14:00:00") ("2026-03-02T15:00:00") [evA, evB]
        = Except.ok [evA, evB] :=
  check_conflicts_exactly_overlapping
    ("2026-03-02T15:00:00") ("2026-03-02T16:00:00") _ _ (by decide) (by decide)
    [evA, evB] evB ("2026-03-02T14:30:00") ("2026-03-02T15:30:00") _ _
    (by decide) (by decide) (by decide) (by decide) (by decide)
    evCancelled (by decide)

/-- C9: counterexample.  An all-day existing event (date-only start and
end) whose normalized day interval overlaps the candidate `[10:00,11:00)`
is not returned by `check_conflicts` at all: the detection skips events
without `dateTime` fields. -/
theorem allday_event_never_conflicts :
    check_conflicts ("2026-02-25T10:00:00") ("2026-02-25T11:00:00") [allDayEvent] = Except.ok []
    ∧ check_conflicts ("2026-02-25T10:00:00") ("2026-02-25T11:00:00") [allDayEvent]
        ≠ Except.ok [allDayEvent]
    ∧ (pyFromIsoZ ("2026-02-25")).getD 0 < (pyFromIsoZ ("2026-02-25T11:00:00")).getD 0
    ∧ (pyFromIsoZ ("2026-02-26")).getD 0 > (pyFromIsoZ ("2026-02-25T10:00:00")).getD 0 := by
  refine ⟨by decide, by decide, by decide, by decide⟩

/-- C9 (amended): all-day events are not normalized to a midnight-to-midnight
interval; they are excluded from conflict detection entirely — every event
returned by `check_conflicts` has both `start.dateTime` and `end.dateTime`
present. -/
theorem conflict_results_are_timed
    (startTime endTime : String) (items r : List UEvent) (ev : UEvent)
    (h : check_conflicts startTime endTime items = Except.ok r) (hmem : ev ∈ r) :
    ev.start.dateTime.isSome = true ∧ ev.end_.dateTime.isSome = true := by
  unfold check_conflicts at h
  rcases h1 : pyFromIsoZ startTime with _ | cs <;> rw [h1] at h <;>
    rcases h2 : pyFromIsoZ endTime with _ | ce <;> rw [h2] at h <;>
      simp only [] at h
  · exact absurd h (by simp)
  · exact absurd h (by simp)
  · exact absurd h (by simp)
  · have hr : items.filter (conflictKeep cs ce) = r := by
      injection h
    rw [← hr] at hmem
    have hk : conflictKeep cs ce ev = true := (List.mem_filter.mp hmem).2
    unfold conflictKeep at hk
    by_cases hst : ev.status = some ("cancelled")
    · rw [if_pos hst] at hk
      exact absurd hk (by simp)
    · rw [if_neg hst] at hk
      rcases hs : ev.start.dateTime with _ | es <;> rw [hs] at hk
      · exact absurd hk (by simp)
      · rcases hend : ev.end_.dateTime with _ | ee <;> rw [hend] at hk
        · exact absurd hk (by simp)
        · exact ⟨rfl, rfl⟩

/-- Witness for the C9 theorem: the timed event B returned for the
candidate `[15:00,16:00)` indeed carries both `dateTime` fields. -/
theorem conflict_results_are_timed_witness :
    evB.start.dateTime.isSome = true ∧ evB.end_.dateTime.isSome = true :=
  conflict_results_are_timed ("2026-03-02T15:00:00") ("2026-03-02T16:00:00")
    [evA, evB] [evB] evB (by decide) (by decide)

end Apple

end Dropcal

namespace Dropcal

namespace Microsoft

/-- C4: when `FREQ=WEEKLY` and `BYDAY` is absent or empty, the Microsoft
pattern's `daysOfWeek` defaults to the single weekday of the event's start
date (Python `date.weekday()`, Monday = 0); the closed conjunct shows a
Thursday start (2026-02-26) yielding `[thursday]`, not `[monday]`. -/
theorem weekly_empty_byday_defaults_to_start_weekday
    (rule : String) (start : UTime) (iv : Int) (rg : MsRange) (sd : String) (y m d : Nat)
    (hfreq : (dictGet (parseRRuleParams (stripRRulePrefix rule).data) ("FREQ")).getD ("") = "WEEKLY")
    (hbyday : (dictGet (parseRRuleParams (stripRRulePrefix rule).data) ("BYDAY")).getD ("") = "")
    (hint : pyInt ((dictGet (parseRRuleParams (stripRRulePrefix rule).data) ("INTERVAL")).getD ("1")) = some iv)
    (hrange : buildMsRange (parseRRuleParams (stripRRulePrefix rule).data) start = Except.ok rg)
    (hsd : pyOrS start.dateTime (start.date.getD ("")) = sd)
    (hdate : parseDate (pyTake 10 sd) = some (y, m, d)) :
    rrule_to_ms_recurrence [rule] start =
      Except.ok (some { pattern := { interval := iv, type := "weekly",
                                     daysOfWeek := some [pyDayNames.getD (daysSinceCE y m d % 7) ("")] },
                        range := rg })
    ∧ rrule_to_ms_recurrence [("RRULE:FREQ=WEEKLY")] { dateTime := some ("2026-02-26T10:00:00") } =
        Except.ok (some { pattern := { interval := 1, type := "weekly", daysOfWeek := some [("thursday")] },
                          range := { type := "noEnd", startDate := "2026-02-26" } })
    ∧ ("thursday" : String) ≠ "monday" := by
  refine ⟨?_, by decide, by decide⟩
  have hz : parseDate (pyTake 10 ("")) = none := by decide
  have hsdne : sd ≠ "" := by
    intro h
    rw [h, hz] at hdate
    exact Option.noConfusion hdate
  simp only [rrule_to_ms_recurrence, hfreq, hint, hbyday, hrange, weeklyDefaultDays, hsd, hdate]
  simp [pyTruthyS, hsdne, Except.map]

/-- Witness for the C4 theorem: the Thursday start 2026-02-26 with
`RRULE:FREQ=WEEKLY` yields `daysOfWeek = [thursday]`. -/
theorem weekly_empty_byday_defaults_witness :
    rrule_to_ms_recurrence [("RRULE:FREQ=WEEKLY")] { dateTime := some ("2026-02-26T10:00:00") } =
      Except.ok (some { pattern := { interval := 1, type := "weekly",
                                     daysOfWeek := some [pyDayNames.getD (daysSinceCE 2026 2 26 % 7) ("")] },
                        range := { type := "noEnd", startDate := "2026-02-26" } })
    ∧ rrule_to_ms_recurrence [("RRULE:FREQ=WEEKLY")] { dateTime := some ("2026-02-26T10:00:00") } =
        Except.ok (some { pattern := { interval := 1, type := "weekly", daysOfWeek := some [("thursday")] },
                          range := { type := "noEnd", startDate := "2026-02-26" } })
    ∧ ("thursday" : String) ≠ "monday" :=
  weekly_empty_byday_defaults_to_start_weekday ("RRULE:FREQ=WEEKLY")
    { dateTime := some ("2026-02-26T10:00:00") } 1
    { type := "noEnd", startDate := "2026-02-26" } ("2026-02-26T10:00:00") 2026 2 26
    (by decide) (by decide) (by decide) (by decide) (by decide) (by decide)

end Microsoft

end Dropcal

namespace Dropcal

/-- Lemma: `takeWhile` over a prefix free of `'T'` followed by `'T' :: rest`
returns exactly the prefix. -/
theorem takeWhile_before_T (l rest : List Char) (h : l.contains 'T' = false) :
    (l ++ 'T' :: rest).takeWhile (fun a => a ≠ 'T') = l := by
  induction l with
  | nil => simp [List.takeWhile]
  | cons a as ih =>
    obtain ⟨hTa, hTnotin⟩ : ¬ ('T' = a) ∧ 'T' ∉ as := by
      simpa [List.contains_cons] using h
    have hne : a ≠ 'T' := fun hEq => hTa hEq.symm
    have htail : as.contains 'T' = false := by
      cases hq : as.contains 'T'
      · rfl
      · have hm : 'T' ∈ as := by simpa using hq
        exact absurd hm hTnotin
    have hpa : (decide (a ≠ 'T')) = true := decide_eq_true hne
    simp only [List.cons_append, List.takeWhile_cons, hpa, if_true, ih htail]

/-- Lemma: `pySplitHead` recovers a date prefix free of `'T'` from the synthesized
midnight string. -/
theorem pySplitHead_allday (ds : String) (h : ds.data.contains 'T' = false) :
    pySplitHead 'T' (ds ++ "T00:00:00") = ds := by
  obtain ⟨l⟩ := ds
  show String.mk ((String.mk l ++ "T00:00:00").data.takeWhile (fun a => a ≠ 'T')) = String.mk l
  have hd : (String.mk l ++ "T00:00:00").data = l ++ ('T' :: ("00:00:00").data) := rfl
  rw [hd, takeWhile_before_T l _ h]

namespace Microsoft

/-- Guard used to state the all-day round-trip for arbitrary events: the
event's recurrence list (when truthy) translates without raising. -/
def rruleTranslationOk (u : UEvent) : Bool :=
  if pyTruthyOL u.recurrence then
    exceptIsOk (rrule_to_ms_recurrence (u.recurrence.getD []) u.start)
  else true

/-- C5: an all-day universal event (date-only start and end, dates free of
`'T'`, recurrence translating cleanly when present) converts to Microsoft
format with `isAllDay = true` and synthesized midnight `dateTime` strings,
and converting back recovers exactly the original date-only pair. -/
theorem allday_roundtrip
    (u : UEvent) (ds de : String)
    (hs : u.start.date = some ds) (he : u.end_.date = some de)
    (hdsT : ds.data.contains 'T' = false) (hdeT : de.data.contains 'T' = false)
    (hrec : rruleTranslationOk u = true) :
    exceptIsOk (from_universal u) = true
    ∧ (exceptOkD {} (from_universal u)).isAllDay = some true
    ∧ (exceptOkD {} (from_universal u)).start =
        some { dateTime := some (ds ++ "T00:00:00"), timeZone := some (u.start.timeZone.getD ("UTC")) }
    ∧ (exceptOkD {} (from_universal u)).end_ =
        some { dateTime := some (de ++ "T00:00:00"), timeZone := some (u.end_.timeZone.getD ("UTC")) }
    ∧ (to_universal (exceptOkD {} (from_universal u))).start = { date := some ds }
    ∧ (to_universal (exceptOkD {} (from_universal u))).end_ = { date := some de } := by
  have key : ∃ ms : MsEvent, from_universal u = Except.ok ms
      ∧ ms.isAllDay = some true
      ∧ ms.start = some { dateTime := some (ds ++ "T00:00:00"), timeZone := some (u.start.timeZone.getD ("UTC")) }
      ∧ ms.end_ = some { dateTime := some (de ++ "T00:00:00"), timeZone := some (u.end_.timeZone.getD ("UTC")) } := by
    unfold from_universal
    simp only [hs, he, Option.isSome_some, if_true, Option.getD_some]
    cases hA : pyTruthyOL u.attendees <;>
      cases hRt : pyTruthyOL u.recurrence <;>
        simp only [hA, hRt, Bool.false_eq_true, if_false, if_true, Except.bind]
    · cases hC1 : pyTruthyOL u.microsoftCategories <;>
        cases hC2 : pyTruthyOS u.colorId <;>
          simp only [hC1, hC2, Bool.false_eq_true, if_false, if_true, Except.map] <;>
            exact ⟨_, rfl, rfl, rfl, rfl⟩
    · unfold rruleTranslationOk at hrec
      rw [hRt] at hrec
      simp only [if_true] at hrec
      rcases hRR : rrule_to_ms_recurrence (u.recurrence.getD []) u.start with e | oo
      · rw [hRR] at hrec
        exact absurd hrec (by simp [exceptIsOk])
      · rcases oo with _ | r <;>
          simp only [hRR] <;>
            cases hC1 : pyTruthyOL u.microsoftCategories <;>
              cases hC2 : pyTruthyOS u.colorId <;>
                simp only [hC1, hC2, Bool.false_eq_true, if_false, if_true, Except.map] <;>
                  exact ⟨_, rfl, rfl, rfl, rfl⟩
    · cases hC1 : pyTruthyOL u.microsoftCategories <;>
        cases hC2 : pyTruthyOS u.colorId <;>
          simp only [hC1, hC2, Bool.false_eq_true, if_false, if_true, Except.map] <;>
            exact ⟨_, rfl, rfl, rfl, rfl⟩
    · unfold rruleTranslationOk at hrec
      rw [hRt] at hrec
      simp only [if_true] at hrec
      rcases hRR : rrule_to_ms_recurrence (u.recurrence.getD []) u.start with e | oo
      · rw [hRR] at hrec
        exact absurd hrec (by simp [exceptIsOk])
      · rcases oo with _ | r <;>
          simp only [hRR] <;>
            cases hC1 : pyTruthyOL u.microsoftCategories <;>
              cases hC2 : pyTruthyOS u.colorId <;>
                simp only [hC1, hC2, Bool.false_eq_true, if_false, if_true, Except.map] <;>
                  exact ⟨_, rfl, rfl, rfl, rfl⟩
  obtain ⟨ms, hEq, h1, h2, h3⟩ := key
  rw [hEq]
  have hred : exceptOkD ({} : MsEvent) (Except.ok ms : Except String MsEvent) = ms := rfl
  rw [hred]
  refine ⟨rfl, h1, h2, h3, ?_, ?_⟩
  · unfold to_universal
    simp only [h1, h2, Option.getD_some, if_true]
    simp [pySplitHead_allday ds hdsT]
  · unfold to_universal
    simp only [h1, h3, Option.getD_some, if_true]
    simp [pySplitHead_allday de hdeT]

/-- Witness for the C5 theorem: the scenario event with
`start.date = 2026-02-25`, `end.date = 2026-02-26`. -/
theorem allday_roundtrip_witness :
    exceptIsOk (from_universal allDayEvent) = true
    ∧ (exceptOkD {} (from_universal allDayEvent)).isAllDay = some true
    ∧ (exceptOkD {} (from_universal allDayEvent)).start =
        some { dateTime := some (("2026-02-25") ++ "T00:00:00"),
               timeZone := some (allDayEvent.start.timeZone.getD ("UTC")) }
    ∧ (exceptOkD {} (from_universal allDayEvent)).end_ =
        some { dateTime := some (("2026-02-26") ++ "T00:00:00"),
               timeZone := some (allDayEvent.end_.timeZone.getD ("UTC")) }
    ∧ (to_universal (exceptOkD {} (from_universal allDayEvent))).start = { date := some ("2026-02-25") }
    ∧ (to_universal (exceptOkD {} (from_universal allDayEvent))).end_ = { date := some ("2026-02-26") } :=
  allday_roundtrip allDayEvent ("2026-02-25") ("2026-02-26")
    (by decide) (by decide) (by decide) (by decide) (by decide)

end Microsoft

end Dropcal

namespace Dropcal

/-- A timed event carrying an RRULE outside the supported grammar
(`FREQ=HOURLY`). -/
def hourlyEvent : UEvent :=
  { summary := some ("Standup"),
    start := { dateTime := some ("2026-03-02T09:00:00"), timeZone := some ("UTC") },
    end_ := { dateTime := some ("2026-03-02T09:15:00"), timeZone := some ("UTC") },
    recurrence := some [("RRULE:FREQ=HOURLY")] }

namespace Microsoft

/-- C6: counterexample.  An event whose RRULE has the unsupported
`FREQ=HOURLY` does not fail conversion: `from_universal` succeeds and the
resulting Microsoft event simply omits the recurrence. -/
theorem unsupported_freq_silently_dropped :
    exceptIsOk (from_universal hourlyEvent) = true
    ∧ (exceptOkD {} (from_universal hourlyEvent)).recurrence = none
    ∧ hourlyEvent.recurrence = some [("RRULE:FREQ=HOURLY")] := by
  refine ⟨by decide, by decide, by decide⟩

/-- C6 (amended): for every event whose first RRULE has a `FREQ` outside
`{DAILY, WEEKLY, MONTHLY, YEARLY}` (and whose `INTERVAL` parses, the only
part read before the frequency dispatch), `_rrule_to_ms_recurrence`
returns `None` and `from_universal` succeeds with the recurrence silently
omitted — no error is raised and no recurrence field is emitted. -/
theorem unsupported_freq_yields_none
    (u : UEvent) (r0 : String) (rest : List String) (iv : Int)
    (hrl : u.recurrence = some (r0 :: rest))
    (hint : pyInt ((dictGet (parseRRuleParams (stripRRulePrefix r0).data) ("INTERVAL")).getD ("1")) = some iv)
    (hf1 : (dictGet (parseRRuleParams (stripRRulePrefix r0).data) ("FREQ")).getD ("") ≠ "DAILY")
    (hf2 : (dictGet (parseRRuleParams (stripRRulePrefix r0).data) ("FREQ")).getD ("") ≠ "WEEKLY")
    (hf3 : (dictGet (parseRRuleParams (stripRRulePrefix r0).data) ("FREQ")).getD ("") ≠ "MONTHLY")
    (hf4 : (dictGet (parseRRuleParams (stripRRulePrefix r0).data) ("FREQ")).getD ("") ≠ "YEARLY")
    (hDay : u.start.date.isSome = true → u.end_.date.isSome = true) :
    rrule_to_ms_recurrence (r0 :: rest) u.start = Except.ok none
    ∧ exceptIsOk (from_universal u) = true
    ∧ (exceptOkD {} (from_universal u)).recurrence = none := by
  have hrr : rrule_to_ms_recurrence (r0 :: rest) u.start = Except.ok none := by
    simp only [rrule_to_ms_recurrence, hint, hf1, hf2, hf3, hf4, if_false]
  refine ⟨hrr, ?_⟩
  have hT : pyTruthyOL u.recurrence = true := by
    rw [hrl]; rfl
  have hG : u.recurrence.getD [] = r0 :: rest := by
    rw [hrl]; rfl
  have key : ∃ ms : MsEvent, from_universal u = Except.ok ms ∧ ms.recurrence = none := by
    unfold from_universal
    rcases hsd : u.start.date with _ | d0
    · simp only [hsd, Option.isSome_none, Bool.false_eq_true, if_false, Except.bind]
      cases hL : pyTruthyOS u.location <;>
        cases hA : pyTruthyOL u.attendees <;>
          simp only [hL, hA, hT, hG, hrr, Bool.false_eq_true, if_false, if_true] <;>
            cases hC1 : pyTruthyOL u.microsoftCategories <;>
              cases hC2 : pyTruthyOS u.colorId <;>
                simp only [hC1, hC2, Bool.false_eq_true, if_false, if_true, Except.map] <;>
                  exact ⟨_, rfl, rfl⟩
    · have hends : u.end_.date.isSome = true := hDay (by rw [hsd]; rfl)
      rcases hed : u.end_.date with _ | e0
      · rw [hed] at hends
        exact absurd hends (by simp)
      · simp only [hsd, hed, Option.isSome_some, if_true, Except.bind]
        cases hL : pyTruthyOS u.location <;>
          cases hA : pyTruthyOL u.attendees <;>
            simp only [hL, hA, hT, hG, hrr, Bool.false_eq_true, if_false, if_true] <;>
              cases hC1 : pyTruthyOL u.microsoftCategories <;>
                cases hC2 : pyTruthyOS u.colorId <;>
                  simp only [hC1, hC2, Bool.false_eq_true, if_false, if_true, Except.map] <;>
                    exact ⟨_, rfl, rfl⟩
  obtain ⟨ms, hEq, h1⟩ := key
  rw [hEq]
  have hred : exceptOkD ({} : MsEvent) (Except.ok ms : Except String MsEvent) = ms := rfl
  rw [hred]
  exact ⟨rfl, h1⟩

/-- Witness for the C6 theorem: instantiated at the `FREQ=HOURLY` event. -/
theorem unsupported_freq_yields_none_witness :
    rrule_to_ms_recurrence [("RRULE:FREQ=HOURLY")] hourlyEvent.start = Except.ok none
    ∧ exceptIsOk (from_universal hourlyEvent) = true
    ∧ (exceptOkD {} (from_universal hourlyEvent)).recurrence = none :=
  unsupported_freq_yields_none hourlyEvent ("RRULE:FREQ=HOURLY") [] 1
    (by decide) (by decide) (by decide) (by decide) (by decide) (by decide) (by decide)

end Microsoft

end Dropcal

namespace Dropcal

namespace Microsoft

/-- C7: a per-event failure never aborts the batch.  An event whose
transformation raises (and whose conflict check finds nothing, or itself
fails) leaves the results and the remote state exactly as they were, and
the loop moves on; in the scenario batch `[E1, bad, E3]` where the bad
event's RRULE fails `int()`, events #1 and #3 are still created (ids
`ms-evt-0`, `ms-evt-1`, remote events `E1` and `E3`, no conflicts). -/
theorem batch_partial_failure_tolerant
    (netOk : Nat → Bool) (acc : (List String × List ConflictInfo) × MsRemoteState)
    (bad : UEvent) (err : String)
    (h1 : from_universal bad = Except.error err)
    (h2 : ms_check_conflicts acc.2 ((bad.start.dateTime).getD ("")) ((bad.end_.dateTime).getD (""))
            = Except.ok []
          ∨ exceptIsOk (ms_check_conflicts acc.2 ((bad.start.dateTime).getD ("")) ((bad.end_.dateTime).getD ("")))
            = false) :
    msProcessEvent netOk acc bad = acc
    ∧ (exceptOkD msDflt msScenarioRun).1.1 = [("ms-evt-0"), ("ms-evt-1")]
    ∧ (exceptOkD msDflt msScenarioRun).1.2 = []
    ∧ (exceptOkD msDflt msScenarioRun).2.events.map (fun m => m.subject) = [("E1"), ("E3")] := by
  refine ⟨?_, by decide, by decide, by decide⟩
  have hcreate : create_event netOk acc.2 bad = (Except.error err, acc.2) := by
    unfold create_event
    rw [h1]
  unfold msProcessEvent
  by_cases hck : (pyTruthyOS bad.start.dateTime = true ∧ pyTruthyOS bad.end_.dateTime = true)
  · rcases h2 with h2 | h2
    · simp [hck, h2, hcreate]
    · rcases hm : ms_check_conflicts acc.2 ((bad.start.dateTime).getD ("")) ((bad.end_.dateTime).getD (""))
        with e | l
      · simp [hck, hm, hcreate]
      · rw [hm] at h2
        exact absurd h2 (by simp [exceptIsOk])
  · simp [hck, hcreate]

/-- Witness for the C7 theorem: the bad event of the scenario processed
against the empty state contributes nothing and changes nothing. -/
theorem batch_partial_failure_tolerant_witness :
    msProcessEvent (fun _ => true) msDflt evBadRRule = msDflt
    ∧ (exceptOkD msDflt msScenarioRun).1.1 = [("ms-evt-0"), ("ms-evt-1")]
    ∧ (exceptOkD msDflt msScenarioRun).1.2 = []
    ∧ (exceptOkD msDflt msScenarioRun).2.events.map (fun m => m.subject) = [("E1"), ("E3")] :=
  batch_partial_failure_tolerant (fun _ => true) msDflt evBadRRule
    ("ValueError: invalid INTERVAL") (by decide) (Or.inl (by decide))

end Microsoft

end Dropcal

namespace Dropcal

namespace Microsoft

/-- One loop iteration contributes at most one entry across the id list and
the conflict list. -/
theorem msProcessEvent_adds_at_most_one (netOk : Nat → Bool)
    (acc : (List String × List ConflictInfo) × MsRemoteState) (e : UEvent) :
    (msProcessEvent netOk acc e).1.1.length + (msProcessEvent netOk acc e).1.2.length
      ≤ acc.1.1.length + acc.1.2.length + 1 := by
  simp only [msProcessEvent]
  split
  · simp
    omega
  · split
    · simp
    · simp
    · split
      · simp
        omega
      · simp

/-- Folding the loop over a batch contributes at most one entry per event. -/
theorem msRun_length_le (netOk : Nat → Bool) (events : List UEvent)
    (acc : (List String × List ConflictInfo) × MsRemoteState) :
    (events.foldl (msProcessEvent netOk) acc).1.1.length
      + (events.foldl (msProcessEvent netOk) acc).1.2.length
      ≤ acc.1.1.length + acc.1.2.length + events.length := by
  induction events generalizing acc with
  | nil => simp
  | cons e es ih =>
    simp only [List.foldl_cons, List.length_cons]
    have h1 := ih (msProcessEvent netOk acc e)
    have h2 := msProcessEvent_adds_at_most_one netOk acc e
    omega

/-- C8: counterexample.  A non-empty batch whose single event fails
transformation returns `([], [])`: the failed event appears in neither
returned list — it has no outcome record in the result at all, only a log
line. -/
theorem failed_event_dropped_from_result :
    create_events_from_session (fun _ => true) true [evBadRRule] {}
      = Except.ok ((([], []), ({} : MsRemoteState)))
    ∧ from_universal evBadRRule = Except.error ("ValueError: invalid INTERVAL") := by
  refine ⟨by decide, by decide⟩

/-- C8 (amended): when the batch preconditions hold (non-empty batch, valid
credentials) the call returns normally — individual-event problems never
raise — and each input event contributes at most one entry (a created id or
a conflict record) to the result; but the result is only
`(calendar_event_ids, all_conflicts)`: failed events are dropped from it
rather than reported with a FAILED outcome.  The call raises exactly for
the batch preconditions (empty batch, missing authentication). -/
theorem batch_outcomes_bounded_and_total
    (netOk : Nat → Bool) (events : List UEvent) (st : MsRemoteState)
    (r : (List String × List ConflictInfo) × MsRemoteState)
    (hne : events ≠ [])
    (hr : create_events_from_session netOk true events st = Except.ok r) :
    r.1.1.length + r.1.2.length ≤ events.length
    ∧ exceptIsOk (create_events_from_session netOk true events st) = true
    ∧ create_events_from_session netOk true [] st = Except.error ("No processed events in session")
    ∧ create_events_from_session netOk false events st
        = Except.error ("User not authenticated with Microsoft Calendar") := by
  have hempty : events.isEmpty = false := by
    cases events with
    | nil => exact absurd rfl hne
    | cons a as => rfl
  have hrun : events.foldl (msProcessEvent netOk) (([], []), st) = r := by
    unfold create_events_from_session at hr
    rw [hempty] at hr
    simp at hr
    exact hr
  refine ⟨?_, ?_, ?_, ?_⟩
  · have h := msRun_length_le netOk events ((([], []), st))
    rw [hrun] at h
    simpa using h
  · rw [hr]
    rfl
  · rfl
  · unfold create_events_from_session
    rw [hempty]
    rfl

/-- Witness for the C8 theorem: the one-event batch `[E1]` against the
empty state yields one created id and no conflicts. -/
theorem batch_outcomes_bounded_and_total_witness :
    (exceptOkD msDflt msTimedRun1).1.1.length + (exceptOkD msDflt msTimedRun1).1.2.length
        ≤ [ev1].length
    ∧ exceptIsOk (create_events_from_session (fun _ => true) true [ev1] {}) = true
    ∧ create_events_from_session (fun _ => true) true [] {}
        = Except.error ("No processed events in session")
    ∧ create_events_from_session (fun _ => true) false [ev1] {}
        = Except.error ("User not authenticated with Microsoft Calendar") :=
  batch_outcomes_bounded_and_total (fun _ => true) [ev1] {} (exceptOkD msDflt msTimedRun1)
    (by decide) (by decide)

end Microsoft

end Dropcal

namespace Dropcal

/-- C2: counterexample.  After a first apple run of the all-day batch the
sync ledger holds the record for `(ev-1, apple)`, yet the second run of
the identical batch performs another remote create (the attempt counter
reaches 2), stores a duplicate remote event (two copies on the calendar),
and reports the created id again — not ALREADY_SYNCED (no such outcome
exists in the code). -/
theorem second_run_repeats_remote_calls :
    (exceptOkD apDflt apRun1).2.ledger =
      [{ universalEventId := "ev-1", provider := "apple",
         providerEventId := "apple-event-0", calendarId := "primary" }]
    ∧ (exceptOkD apDflt apRun2).2.createCalls = 2
    ∧ (exceptOkD apDflt apRun2).2.remote.length = 2
    ∧ (exceptOkD apDflt apRun2).1.1 = [("apple-event-0")] := by
  refine ⟨by decide, by decide, by decide, by decide⟩

/-- C2 (amended): neither orchestrator consults the sync ledger before the
remote calls, and no ALREADY_SYNCED outcome exists.  Re-running an
identical batch repeats the per-event processing: an all-day event (whose
conflict check is skipped, it has no `dateTime`) is created again — a
duplicate remote event on apple (the ledger stays at one record only
because the repository's unique key rejects the duplicate write) and on
Microsoft (second id `ms-evt-1`, two remote events); a timed event escapes
duplication only because the first run's copy now conflicts with it, so
the second run reports it as a conflict after another remote query, with
no second create attempt. -/
theorem second_run_behaviour :
    ((exceptOkD apDflt apRun2).2.remote.length = 2
      ∧ (exceptOkD apDflt apRun2).2.ledger.length = 1
      ∧ (exceptOkD apDflt apRun2).1.1 = [("apple-event-0")])
    ∧ ((exceptOkD msDflt msAllDayRun2).1.1 = [("ms-evt-1")]
      ∧ (exceptOkD msDflt msAllDayRun2).2.events.length = 2)
    ∧ ((exceptOkD msDflt msTimedRun2).1.1 = []
      ∧ (exceptOkD msDflt msTimedRun2).1.2.length = 1
      ∧ (exceptOkD msDflt msTimedRun2).2.events.length = 1
      ∧ (exceptOkD msDflt msTimedRun2).2.createCalls = 1) := by
  refine ⟨⟨by decide, by decide, by decide⟩, ⟨by decide, by decide⟩,
          by decide, by decide, by decide, by decide⟩

namespace Apple

/-- The `parse_ical_string` fold restated as an independent per-component
`filterMap`: each component's contribution does not depend on any other
component's success. -/
theorem parse_foldl_filterMap {a : Type} (toUniv : ICalComp a → Except String UEvent)
    (comps : List (ICalComp a)) (acc : List UEvent) :
    comps.foldl (fun acc c =>
      if c.name = "VEVENT" then
        match toUniv c with
        | Except.ok u => acc ++ [u]
        | Except.error _ => acc
      else acc) acc
    = acc ++ (comps.filter (fun c => c.name == "VEVENT")).filterMap
        (fun c => (toUniv c).toOption) := by
  induction comps generalizing acc with
  | nil => simp
  | cons c cs ih =>
    simp only [List.foldl_cons, List.filter_cons]
    by_cases hn : c.name = "VEVENT"
    · have hb : (c.name == "VEVENT") = true := by
        simp [hn]
      rw [if_pos hn, hb]
      rcases ht : toUniv c with e | u
      · simp [List.filterMap_cons, ht, Except.toOption, ih]
      · simp [List.filterMap_cons, ht, Except.toOption, ih]
    · have hb : (c.name == "VEVENT") = false := by
        simp [hn]
      rw [if_neg hn, hb]
      simp [ih]

/-- C10: `parse_ical_string` is total (it returns a list for every input,
modelling that every library exception is caught) and isolates per-event
failures: an unparseable document yields `[]`, and within a parseable
document each VEVENT contributes independently — a component whose
conversion raises is skipped while every other VEVENT's universal event is
still returned, in order. -/
theorem parse_ical_total_and_isolating {a : Type}
    (fromIcal : String → Except String (List (ICalComp a)))
    (toUniv : ICalComp a → Except String UEvent)
    (s sBad : String) (comps : List (ICalComp a)) (eDoc : String)
    (hdoc : fromIcal s = Except.ok comps)
    (hbad : fromIcal sBad = Except.error eDoc) :
    parse_ical_string fromIcal toUniv s
      = (comps.filter (fun c => c.name == "VEVENT")).filterMap (fun c => (toUniv c).toOption)
    ∧ parse_ical_string fromIcal toUniv sBad = [] := by
  constructor
  · unfold parse_ical_string
    rw [hdoc]
    simpa using parse_foldl_filterMap toUniv comps []
  · unfold parse_ical_string
    rw [hbad]

end Apple

/-- A concrete walked component list: a VCALENDAR wrapper and three
VEVENTs. -/
def witComps : List (Apple.ICalComp Nat) :=
  [⟨"VCALENDAR", 0⟩, ⟨"VEVENT", 1⟩, ⟨"VEVENT", 2⟩, ⟨"VEVENT", 3⟩]

/-- A concrete document parser: one good document, everything else fails. -/
def witFromIcal : String → Except String (List (Apple.ICalComp Nat)) :=
  fun s => if s = "BEGIN:VCALENDAR" then Except.ok witComps else Except.error ("not an iCalendar document")

/-- A concrete per-component converter in which component 2 fails. -/
def witToUniv : Apple.ICalComp Nat → Except String UEvent :=
  fun c => if c.payload = 2 then Except.error ("bad component")
           else Except.ok { summary := some (natRepr c.payload) }

/-- Witness for the C10 theorem: with the failing component #2, the good
document yields the events of components 1 and 3, and a bad document
yields `[]`. -/
theorem parse_ical_total_and_isolating_witness :
    Apple.parse_ical_string witFromIcal witToUniv ("BEGIN:VCALENDAR")
      = (witComps.filter (fun c => c.name == "VEVENT")).filterMap (fun c => (witToUniv c).toOption)
    ∧ Apple.parse_ical_string witFromIcal witToUniv ("garbage") = [] :=
  Apple.parse_ical_total_and_isolating witFromIcal witToUniv
    ("BEGIN:VCALENDAR") ("garbage") witComps ("not an iCalendar document")
    (by decide) (by decide)

end Dropcal
